import Mathlib

set_option maxRecDepth 16384

/-!
# Verification of the fig-to-psd conversion server (`src/index.js`)

This file is a shallow embedding of the Express `/convert` handler of
`src/index.js`.  The handler drives the Photopea web editor inside a headless
browser:

* a wrapper page installs a `message` listener that maintains three globals
  (`ppReady`, `psdData`, `messageLog`) — embedded as `PageState` /
  `handleMessage`;
* the node side performs a strict sequence: launch browser → `page.goto`
  (navigation) → wait `ppReady` (handshake) → reset `ppReady` → post the
  `.fig` bytes → wait `ppReady` (load) → 2000 ms settle delay → reset
  `ppReady` and `psdData` → post the export command string → wait
  `psdData !== null` → read the bytes and answer 200, with a
  `Content-Disposition` filename obtained by `fileName.replace(".fig", ".psd")`;
* any thrown error is caught and answered as a generic
  `500` JSON body with the fixed label `Conversion failed` and the message of the error;
* a `finally` block closes the browser when (and only when) it was launched;
  the `await browser.close()` call is not wrapped in its own try/catch, so an
  error thrown by `close` escapes the handler.

The external world (browser launch success, navigation completion time, the
stream of messages the Photopea iframe posts to the wrapper page, whether
`browser.close` throws) is an explicit environment `Env`.  Message delivery is
timed: each inbound message carries an arrival instant (milliseconds); a
`page.waitForFunction` call is embedded as `waitFor`, which delivers queued
messages in order until the polled predicate holds or the deadline passes.
Polling granularity (500/1000 ms) is abstracted to immediate detection, which
is the "small scheduling slack" allowed by the specification.  Message lists
are meant to be sorted by arrival time; no theorem below depends on
sortedness.
-/

/-- A message posted by the Photopea iframe to the wrapper page: either a
string (the `"done"` sentinel or any other text) or an `ArrayBuffer`
(modelled as its byte list). -/
inductive Msg where
  | str (s : String)
  | binary (bytes : List Nat)
  deriving DecidableEq

/-- One entry of the wrapper page `window.messageLog` debug log:
`"done"`, `"arraybuffer:" + byteLength`, or `"string:" + data.substring(0, 50)`. -/
inductive LogEntry where
  | done
  | arrayBuffer (byteLength : Nat)
  | str (s : String)
  deriving DecidableEq

/-- The wrapper page globals: `window.ppReady`, `window.psdData`,
`window.messageLog` (the unused `window.ppError` is constantly `null` and is
omitted). -/
structure PageState where
  ppReady : Bool
  psdData : Option (List Nat)
  messageLog : List LogEntry
  deriving DecidableEq

/-- Initial values set by the inline script of the wrapper page:
`ppReady = false`, `psdData = null`, `messageLog = []`. -/
def pageInit : PageState :=
  { ppReady := false, psdData := none, messageLog := [] }

/-- The `message` listener of the wrapper page: the string `"done"` sets
`ppReady` and logs a `done` entry; an `ArrayBuffer` is stored into `psdData` and its byte length
logged; any other string is logged truncated to 50 characters. -/
def handleMessage (st : PageState) : Msg → PageState
  | Msg.str s =>
      if s == "done" then
        { st with ppReady := true, messageLog := st.messageLog ++ [LogEntry.done] }
      else
        { st with messageLog := st.messageLog ++ [LogEntry.str (s.take 50)] }
  | Msg.binary bs =>
      { st with psdData := some bs,
                messageLog := st.messageLog ++ [LogEntry.arrayBuffer bs.length] }

/-- Deliver every queued message whose arrival instant is at most `tNew`
(used while the node side is busy navigating or sleeping). -/
def deliverUpTo (tNew : Nat) (st : PageState) :
    List (Nat × Msg) → PageState × List (Nat × Msg)
  | [] => (st, [])
  | (ta, m) :: rest =>
      if ta ≤ tNew then deliverUpTo tNew (handleMessage st m) rest
      else (st, (ta, m) :: rest)

/-- Result of a `page.waitForFunction` call: whether the predicate was seen
to hold, the instant at which the wait ended, the page state and the
still-undelivered queue at that instant. -/
structure WaitResult where
  ok : Bool
  t : Nat
  st : PageState
  ms : List (Nat × Msg)
  deriving DecidableEq

/-- `page.waitForFunction(pred, {timeout})`, embedded with immediate
detection: deliver queued messages in order while the predicate is false and
the arrival instant is within the deadline; succeed at the instant the
predicate first holds, otherwise time out exactly at the deadline. -/
def waitFor (p : PageState → Bool) (deadline : Nat) (t : Nat) (st : PageState) :
    List (Nat × Msg) → WaitResult
  | [] =>
      if p st then ⟨true, t, st, []⟩
      else ⟨false, deadline, st, []⟩
  | (ta, m) :: rest =>
      if p st then ⟨true, t, st, (ta, m) :: rest⟩
      else if ta ≤ deadline then
        waitFor p deadline (max t ta) (handleMessage st m) rest
      else ⟨false, deadline, st, (ta, m) :: rest⟩

/-- The three `waitForFunction` call sites of the handler. -/
inductive Phase where
  | handshake
  | load
  | psdWait
  deriving DecidableEq

/-- The errors the try block of the handler can throw. -/
inductive JsError where
  | launchFailure
  | navTimeout
  | waitTimeout (p : Phase)
  | closeFailure
  deriving DecidableEq

/-- `error.message` of each thrown error.  All three `waitForFunction` sites
use the same 60000 ms timeout, so puppeteer produces the identical message
for a handshake, load or export wait timeout. -/
def errMessage : JsError → String
  | JsError.launchFailure => "Failed to launch the browser process"
  | JsError.navTimeout => "Navigation timeout of 60000 ms exceeded"
  | JsError.waitTimeout _ => "Waiting failed: 60000ms exceeded"
  | JsError.closeFailure => "Protocol error: Connection closed"

/-- The exact command string the handler posts to the Photopea iframe to
request the PSD export (line 151 of `src/index.js`). -/
def exportCommand : String := "app.activeDocument.saveToOE(\"psd\");"

/-- The 4-byte magic signature of a PSD file, `8BPS`. -/
def psdMagic : List Nat := [56, 66, 80, 83]

/-- `startsWithL pat s` is true when `pat` is a prefix of `s`
(character lists). -/
def startsWithL : List Char → List Char → Bool
  | [], _ => true
  | _ :: _, [] => false
  | p :: ps, c :: cs => p == c && startsWithL ps cs

/-- JavaScript `String.prototype.replace` with a plain-string pattern:
replace the first occurrence of `pat` by `repl`, scanning left to right;
return the input unchanged when `pat` does not occur. -/
def replaceFirst (pat repl : List Char) : List Char → List Char
  | [] => if startsWithL pat [] then repl ++ [] else []
  | c :: cs =>
      if startsWithL pat (c :: cs) then repl ++ List.drop pat.length (c :: cs)
      else c :: replaceFirst pat repl cs

/-- The characters of `".fig"`. -/
def figChars : List Char := ['.', 'f', 'i', 'g']

/-- The characters of `".psd"`. -/
def psdChars : List Char := ['.', 'p', 's', 'd']

/-- The suggested download name placed in the `Content-Disposition` header:
`fileName.replace(".fig", ".psd")` (line 175 of `src/index.js`). -/
def suggestedName (fileName : List Char) : List Char :=
  replaceFirst figChars psdChars fileName

/-- The multer `fileFilter`: accept exactly the uploads whose original name
ends with `.fig` (lines 20–27 of `src/index.js`). -/
def fileFilterAccepts (fileName : List Char) : Bool :=
  startsWithL figChars.reverse fileName.reverse

/-- The external world of one `/convert` request: whether `puppeteer.launch`
succeeds, when (if ever, within its 60000 ms budget) `page.goto` completes,
the timed messages the Photopea iframe will post, and whether
`browser.close()` throws during cleanup. -/
structure Env where
  launchOk : Bool
  gotoTime : Option Nat
  msgs : List (Nat × Msg)
  closeThrows : Bool

/-- What the try block of the handler did: its outcome (the PSD bytes or the
thrown error), whether a browser was acquired, the `.fig` bytes posted to the
iframe (if the transfer step ran), the export command posted (if the export
step ran), the page state and undelivered queue at the instant of the file
post, the instant the try block exited, and the still-undelivered queue at
that instant. -/
structure TryResult where
  outcome : Except JsError (List Nat)
  acquired : Bool
  sentFile : Option (List Nat)
  exportCmd : Option String
  stAtSend : Option PageState
  msAtSend : Option (List (Nat × Msg))
  tEnd : Nat
  pending : List (Nat × Msg)

/-- Lines 139–165: the 2000 ms settle delay, the `ppReady`/`psdData` reset,
the export command post, and the wait for `window.psdData !== null`,
followed by reading the bytes back. -/
def exportPhase (t : Nat) (st : PageState) (ms : List (Nat × Msg)) : TryResult :=
  let d := deliverUpTo (t + 2000) st ms
  let st1 := { d.1 with ppReady := false, psdData := none }
  let w := waitFor (fun s => s.psdData.isSome) (t + 2000 + 60000) (t + 2000) st1 d.2
  if w.ok then
    { outcome := Except.ok (w.st.psdData.getD []), acquired := true,
      sentFile := none, exportCmd := some exportCommand,
      stAtSend := none, msAtSend := none, tEnd := w.t, pending := w.ms }
  else
    { outcome := Except.error (JsError.waitTimeout Phase.psdWait), acquired := true,
      sentFile := none, exportCmd := some exportCommand,
      stAtSend := none, msAtSend := none, tEnd := w.t, pending := w.ms }

/-- Lines 121–136: reset `ppReady`, post the `.fig` bytes to the iframe, and
wait for the load-complete `ppReady` signal. -/
def transferPhase (fb : List Nat) (t : Nat) (st : PageState)
    (ms : List (Nat × Msg)) : TryResult :=
  let st1 := { st with ppReady := false }
  let w := waitFor (fun s => s.ppReady) (t + 60000) t st1 ms
  if w.ok then
    let r := exportPhase w.t w.st w.ms
    { r with sentFile := some fb, stAtSend := some st1, msAtSend := some ms }
  else
    { outcome := Except.error (JsError.waitTimeout Phase.load), acquired := true,
      sentFile := some fb, exportCmd := none,
      stAtSend := some st1, msAtSend := some ms, tEnd := w.t, pending := w.ms }

/-- Lines 110–116: wait for the initial Photopea `ppReady` handshake
signal. -/
def handshakePhase (fb : List Nat) (t : Nat) (st : PageState)
    (ms : List (Nat × Msg)) : TryResult :=
  let w := waitFor (fun s => s.ppReady) (t + 60000) t st ms
  if w.ok then transferPhase fb w.t w.st w.ms
  else
    { outcome := Except.error (JsError.waitTimeout Phase.handshake), acquired := true,
      sentFile := none, exportCmd := none,
      stAtSend := none, msAtSend := none, tEnd := w.t, pending := w.ms }

/-- The whole try block (lines 48–180): launch, navigate, then the three
protocol phases. -/
def runTry (env : Env) (fb : List Nat) : TryResult :=
  if env.launchOk then
    match env.gotoTime with
    | none =>
        let d := deliverUpTo 60000 pageInit env.msgs
        { outcome := Except.error JsError.navTimeout, acquired := true,
          sentFile := none, exportCmd := none,
          stAtSend := none, msAtSend := none, tEnd := 60000, pending := d.2 }
    | some g =>
        let d := deliverUpTo g pageInit env.msgs
        handshakePhase fb g d.1 d.2
  else
    { outcome := Except.error JsError.launchFailure, acquired := false,
      sentFile := none, exportCmd := none,
      stAtSend := none, msAtSend := none, tEnd := 0, pending := env.msgs }

/-- The HTTP response the handler produces. -/
inductive HttpResponse where
  | ok (payload : List Nat) (attachmentName : List Char)
  | serverError (label msg : String)
  | badRequest (msg : String)
  deriving DecidableEq

/-- What one `/convert` request did, seen from outside the try block: the
HTTP response, how many times `browser.close()` was invoked by the `finally`
block, and the error (if any) that escaped the handler because the `finally`
block does not guard its `await browser.close()`. -/
structure RunResult where
  response : HttpResponse
  closeCalls : Nat
  unhandled : Option JsError

/-- The whole `/convert` handler (lines 35–214): the missing-file guard, the
try block, the catch block mapping every thrown error to
a `500` JSON body with the fixed label `Conversion failed` and `error.message`,
and the `finally` block closing the browser exactly when it was launched.
The best-effort debug `page.evaluate` of the catch block only writes to the
console and swallows its own errors, so it is not modelled. -/
def convertHandler (env : Env) (file : Option (List Char × List Nat)) : RunResult :=
  match file with
  | none => { response := HttpResponse.badRequest "No file uploaded",
              closeCalls := 0, unhandled := none }
  | some (fn, fb) =>
      let r := runTry env fb
      let response := match r.outcome with
        | Except.ok psd => HttpResponse.ok psd (suggestedName fn)
        | Except.error e => HttpResponse.serverError "Conversion failed" (errMessage e)
      { response := response,
        closeCalls := if r.acquired then 1 else 0,
        unhandled := if r.acquired && env.closeThrows then some JsError.closeFailure
                     else none }

/-- The character list of the sample upload name `design.fig`. -/
def figName : List Char := String.toList "design.fig"

/-- An environment in which the browser launches, navigation completes at
instant 0, and Photopea never posts any message. -/
def envNoMsgs : Env :=
  { launchOk := true, gotoTime := some 0, msgs := [], closeThrows := false }

/-- An environment in which Photopea posts the handshake sentinel at
instant 0 and then nothing else. -/
def envEarlyDone : Env :=
  { launchOk := true, gotoTime := some 0,
    msgs := [(0, Msg.str "done")], closeThrows := false }

/-- An environment for a full conversion: handshake sentinel at 0, load
sentinel at 10, and the export result bytes `bs` at 3000 (after the 2000 ms
settle delay). -/
def envResult (bs : List Nat) : Env :=
  { launchOk := true, gotoTime := some 0,
    msgs := [(0, Msg.str "done"), (10, Msg.str "done"), (3000, Msg.binary bs)],
    closeThrows := false }

/-- A full conversion whose export result `[1, 2, 3]` at instant 3000 is
followed by a trailing completion sentinel at instant `t`. -/
def envTrailing (t : Nat) : Env :=
  { launchOk := true, gotoTime := some 0,
    msgs := [(0, Msg.str "done"), (10, Msg.str "done"),
             (3000, Msg.binary [1, 2, 3]), (t, Msg.str "done")],
    closeThrows := false }

/-- An environment in which Photopea posts a stray binary message at
instant 0 (before the handshake sentinel at instant 5), so that `psdData`
holds a stale value when the `.fig` bytes are transmitted. -/
def envStale : Env :=
  { launchOk := true, gotoTime := some 0,
    msgs := [(0, Msg.binary [5]), (5, Msg.str "done")], closeThrows := false }

/-- An environment in which the job itself times out at the handshake and
`browser.close()` then throws during cleanup. -/
def envCloseThrows : Env :=
  { launchOk := true, gotoTime := some 0, msgs := [], closeThrows := true }

/-- Delivering a message other than the `"done"` sentinel never changes
`ppReady`. -/
theorem handleMessage_ppReady (st : PageState) (m : Msg) (h : m ≠ Msg.str "done") :
    (handleMessage st m).ppReady = st.ppReady := by
  cases m with
  | str s =>
      have hs : (s == "done") = false := by
        refine beq_eq_false_iff_ne.mpr ?_
        intro hc
        exact h (by rw [hc])
      simp [handleMessage, hs]
  | binary bs => simp [handleMessage]

/-- If delivering a message turned `ppReady` on, it was already on or the
message was the `"done"` sentinel. -/
theorem handleMessage_ppReady_true (st : PageState) (m : Msg)
    (h : (handleMessage st m).ppReady = true) :
    st.ppReady = true ∨ m = Msg.str "done" := by
  by_cases hm : m = Msg.str "done"
  · exact Or.inr hm
  · exact Or.inl (by rw [← handleMessage_ppReady st m hm]; exact h)

/-- Background delivery of sentinel-free messages never changes `ppReady`. -/
theorem deliverUpTo_ppReady (T : Nat) :
    ∀ (ms : List (Nat × Msg)) (st : PageState),
      (∀ p ∈ ms, p.2 ≠ Msg.str "done") →
      ((deliverUpTo T st ms).1).ppReady = st.ppReady := by
  intro ms
  induction ms with
  | nil => intro st _; simp [deliverUpTo]
  | cons q rest ih =>
      intro st h
      obtain ⟨ta, m⟩ := q
      have hm : m ≠ Msg.str "done" := h (ta, m) (List.mem_cons_self _ _)
      by_cases hta : ta ≤ T
      · have := ih (handleMessage st m) (fun p hp => h p (List.mem_cons_of_mem _ hp))
        rw [handleMessage_ppReady st m hm] at this
        simpa [deliverUpTo, hta] using this
      · simp [deliverUpTo, hta]

/-- Background delivery only removes messages from the queue. -/
theorem deliverUpTo_mem (T : Nat) :
    ∀ (ms : List (Nat × Msg)) (st : PageState) (q : Nat × Msg),
      q ∈ (deliverUpTo T st ms).2 → q ∈ ms := by
  intro ms
  induction ms with
  | nil => intro st q hq; simp [deliverUpTo] at hq
  | cons r rest ih =>
      intro st q hq
      obtain ⟨ta, m⟩ := r
      by_cases hta : ta ≤ T
      · simp only [deliverUpTo, if_pos hta] at hq
        exact List.mem_cons_of_mem _ (ih (handleMessage st m) q hq)
      · simp only [deliverUpTo, if_neg hta] at hq
        exact hq

/-- A wait on `ppReady` starting from a cleared flag, fed only sentinel-free
messages, times out exactly at its deadline. -/
theorem waitFor_ready_timeout (d : Nat) :
    ∀ (ms : List (Nat × Msg)) (t : Nat) (st : PageState),
      st.ppReady = false →
      (∀ p ∈ ms, p.2 ≠ Msg.str "done") →
      (waitFor (fun s => s.ppReady) d t st ms).ok = false ∧
      (waitFor (fun s => s.ppReady) d t st ms).t = d := by
  intro ms
  induction ms with
  | nil => intro t st h1 _; simp [waitFor, h1]
  | cons q rest ih =>
      intro t st h1 h2
      obtain ⟨ta, m⟩ := q
      have hm : m ≠ Msg.str "done" := h2 (ta, m) (List.mem_cons_self _ _)
      by_cases hta : ta ≤ d
      · have hpp : (handleMessage st m).ppReady = false := by
          rw [handleMessage_ppReady st m hm]; exact h1
        have := ih (max t ta) (handleMessage st m) hpp
          (fun p hp => h2 p (List.mem_cons_of_mem _ hp))
        simpa [waitFor, h1, hta] using this
      · simp [waitFor, h1, hta]

/-- A wait on `ppReady` that starts with the flag cleared can only succeed
if the queue it consumes contains a `"done"` sentinel. -/
theorem waitFor_ready_done_mem (d : Nat) :
    ∀ (ms : List (Nat × Msg)) (t : Nat) (st : PageState),
      st.ppReady = false →
      (waitFor (fun s => s.ppReady) d t st ms).ok = true →
      ∃ ta, (ta, Msg.str "done") ∈ ms := by
  intro ms
  induction ms with
  | nil => intro t st h1 hok; simp [waitFor, h1] at hok
  | cons q rest ih =>
      intro t st h1 hok
      obtain ⟨ta, m⟩ := q
      by_cases hta : ta ≤ d
      · by_cases hm : m = Msg.str "done"
        · exact ⟨ta, by rw [hm]; exact List.mem_cons_self _ _⟩
        · have hpp : (handleMessage st m).ppReady = false := by
            rw [handleMessage_ppReady st m hm]; exact h1
          have hok2 : (waitFor (fun s => s.ppReady) d (max t ta)
              (handleMessage st m) rest).ok = true := by
            simpa [waitFor, h1, hta] using hok
          obtain ⟨tb, htb⟩ := ih (max t ta) (handleMessage st m) hpp hok2
          exact ⟨tb, List.mem_cons_of_mem _ htb⟩
      · simp [waitFor, h1, hta] at hok

/-- The export phase always reports an acquired browser. -/
theorem exportPhase_acquired (t : Nat) (st : PageState) (ms : List (Nat × Msg)) :
    (exportPhase t st ms).acquired = true := by
  unfold exportPhase
  dsimp only
  split <;> rfl

/-- The transfer phase always reports an acquired browser. -/
theorem transferPhase_acquired (fb : List Nat) (t : Nat) (st : PageState)
    (ms : List (Nat × Msg)) :
    (transferPhase fb t st ms).acquired = true := by
  unfold transferPhase
  dsimp only
  split
  · exact exportPhase_acquired _ _ _
  · rfl

/-- The handshake phase always reports an acquired browser. -/
theorem handshakePhase_acquired (fb : List Nat) (t : Nat) (st : PageState)
    (ms : List (Nat × Msg)) :
    (handshakePhase fb t st ms).acquired = true := by
  unfold handshakePhase
  dsimp only
  split
  · exact transferPhase_acquired _ _ _ _
  · rfl

/-- The try block records an acquired browser exactly when the launch
succeeded. -/
theorem runTry_acquired (env : Env) (fb : List Nat) :
    (runTry env fb).acquired = env.launchOk := by
  unfold runTry
  cases h : env.launchOk with
  | false => simp
  | true =>
      cases hg : env.gotoTime with
      | none => simp
      | some g => simp [handshakePhase_acquired]

/-- The export phase always records exactly the export command it posted. -/
theorem exportPhase_cmd (t : Nat) (st : PageState) (ms : List (Nat × Msg)) :
    (exportPhase t st ms).exportCmd = some exportCommand := by
  unfold exportPhase
  dsimp only
  split <;> rfl

/-- The transfer phase posts either nothing or exactly the export command. -/
theorem transferPhase_cmd (fb : List Nat) (t : Nat) (st : PageState)
    (ms : List (Nat × Msg)) :
    (transferPhase fb t st ms).exportCmd = none ∨
    (transferPhase fb t st ms).exportCmd = some exportCommand := by
  unfold transferPhase
  dsimp only
  split
  · exact Or.inr (exportPhase_cmd _ _ _)
  · exact Or.inl rfl

/-- The handshake phase posts either nothing or exactly the export
command. -/
theorem handshakePhase_cmd (fb : List Nat) (t : Nat) (st : PageState)
    (ms : List (Nat × Msg)) :
    (handshakePhase fb t st ms).exportCmd = none ∨
    (handshakePhase fb t st ms).exportCmd = some exportCommand := by
  unfold handshakePhase
  dsimp only
  split
  · exact transferPhase_cmd _ _ _ _
  · exact Or.inl rfl

/-- When the launch succeeds and navigation completes at instant `g`, the
try block is the handshake phase started on the state and queue left after
background delivery during navigation. -/
theorem runTry_goto (env : Env) (fb : List Nat) (g : Nat)
    (hl : env.launchOk = true) (hg : env.gotoTime = some g) :
    runTry env fb = handshakePhase fb g (deliverUpTo g pageInit env.msgs).1
      (deliverUpTo g pageInit env.msgs).2 := by
  unfold runTry
  rw [hl, hg]
  rfl

/-- When the launch fails, the try block throws `ProcessLaunchError`
immediately, with no browser acquired and nothing sent. -/
theorem runTry_launchFail (env : Env) (fb : List Nat) (hl : env.launchOk = false) :
    runTry env fb =
      { outcome := Except.error JsError.launchFailure, acquired := false,
        sentFile := none, exportCmd := none, stAtSend := none, msAtSend := none,
        tEnd := 0, pending := env.msgs } := by
  unfold runTry
  rw [hl]
  rfl

/-- When navigation times out, the try block throws the navigation timeout,
with the browser acquired and nothing sent. -/
theorem runTry_navFail (env : Env) (fb : List Nat) (hl : env.launchOk = true)
    (hg : env.gotoTime = none) :
    runTry env fb =
      { outcome := Except.error JsError.navTimeout, acquired := true,
        sentFile := none, exportCmd := none, stAtSend := none, msAtSend := none,
        tEnd := 60000, pending := (deliverUpTo 60000 pageInit env.msgs).2 } := by
  unfold runTry
  rw [hl, hg]
  rfl

/-- A handshake phase started with `ppReady` cleared and no sentinel in the
queue throws the handshake wait timeout exactly at its deadline, without
sending the file or the export command. -/
theorem handshakePhase_timeout (fb : List Nat) (t : Nat) (st : PageState)
    (ms : List (Nat × Msg)) (h1 : st.ppReady = false)
    (h2 : ∀ p ∈ ms, p.2 ≠ Msg.str "done") :
    (handshakePhase fb t st ms).outcome
        = Except.error (JsError.waitTimeout Phase.handshake)
    ∧ (handshakePhase fb t st ms).sentFile = none
    ∧ (handshakePhase fb t st ms).exportCmd = none
    ∧ (handshakePhase fb t st ms).tEnd = t + 60000 := by
  have hw := waitFor_ready_timeout (t + 60000) ms t st h1 h2
  unfold handshakePhase
  dsimp only
  rw [hw.1]
  simp [hw.2]

/-- In the transfer phase, the page state recorded at the instant of the
file post has `ppReady` cleared, and if the export command was later posted
then the load wait was satisfied by a sentinel still queued (hence not yet
delivered) when the file was posted. -/
theorem transferPhase_send (fb : List Nat) (t : Nat) (st : PageState)
    (ms : List (Nat × Msg)) (stS : PageState) (msS : List (Nat × Msg))
    (h1 : (transferPhase fb t st ms).stAtSend = some stS)
    (h2 : (transferPhase fb t st ms).msAtSend = some msS) :
    stS.ppReady = false
    ∧ ((transferPhase fb t st ms).exportCmd.isSome = true →
        ∃ ta, (ta, Msg.str "done") ∈ msS) := by
  have hsa : (transferPhase fb t st ms).stAtSend = some { st with ppReady := false } := by
    unfold transferPhase
    dsimp only
    split <;> rfl
  have hma : (transferPhase fb t st ms).msAtSend = some ms := by
    unfold transferPhase
    dsimp only
    split <;> rfl
  have hst : ({ st with ppReady := false } : PageState) = stS :=
    Option.some.inj (hsa.symm.trans h1)
  have hms : ms = msS := Option.some.inj (hma.symm.trans h2)
  constructor
  · rw [← hst]
  · intro hcmd
    by_cases hw : (waitFor (fun s => s.ppReady) (t + 60000) t
        { st with ppReady := false } ms).ok = true
    · rw [← hms]
      exact waitFor_ready_done_mem (t + 60000) ms t { st with ppReady := false } rfl hw
    · have hca : (transferPhase fb t st ms).exportCmd = none := by
        unfold transferPhase
        dsimp only
        rw [if_neg hw]
      rw [hca] at hcmd
      simp at hcmd

/-- Lift of `transferPhase_send` over the handshake phase. -/
theorem handshakePhase_send (fb : List Nat) (t : Nat) (st : PageState)
    (ms : List (Nat × Msg)) (stS : PageState) (msS : List (Nat × Msg))
    (h1 : (handshakePhase fb t st ms).stAtSend = some stS)
    (h2 : (handshakePhase fb t st ms).msAtSend = some msS) :
    stS.ppReady = false
    ∧ ((handshakePhase fb t st ms).exportCmd.isSome = true →
        ∃ ta, (ta, Msg.str "done") ∈ msS) := by
  by_cases hw : (waitFor (fun s => s.ppReady) (t + 60000) t st ms).ok = true
  · have he : handshakePhase fb t st ms =
        transferPhase fb (waitFor (fun s => s.ppReady) (t + 60000) t st ms).t
          (waitFor (fun s => s.ppReady) (t + 60000) t st ms).st
          (waitFor (fun s => s.ppReady) (t + 60000) t st ms).ms := by
      unfold handshakePhase
      dsimp only
      rw [if_pos hw]
    rw [he] at h1 h2 ⊢
    exact transferPhase_send _ _ _ _ _ _ h1 h2
  · have hsa : (handshakePhase fb t st ms).stAtSend = none := by
      unfold handshakePhase
      dsimp only
      rw [if_neg hw]
    rw [hsa] at h1
    exact Option.noConfusion h1

/-- A pattern is a prefix of itself followed by anything. -/
theorem startsWithL_append_self : ∀ pat v : List Char, startsWithL pat (pat ++ v) = true := by
  intro pat v
  induction pat with
  | nil => rfl
  | cons p ps ih => simp [startsWithL, ih]

/-- When the pattern matches at the head, `replaceFirst` substitutes it
there. -/
theorem replaceFirst_pos (pat repl s : List Char) (h : startsWithL pat s = true) :
    replaceFirst pat repl s = repl ++ List.drop pat.length s := by
  cases s with
  | nil => simp [replaceFirst, h]
  | cons c cs => simp [replaceFirst, h]

/-- When the pattern does not match at the head, `replaceFirst` keeps the
head character and continues. -/
theorem replaceFirst_neg (pat repl : List Char) (c : Char) (cs : List Char)
    (h : startsWithL pat (c :: cs) = false) :
    replaceFirst pat repl (c :: cs) = c :: replaceFirst pat repl cs := by
  simp [replaceFirst, h]

/-- C1 counterexample: a job in which the remote editor delivers the bytes
`[9, 9, 9, 9]` completes successfully and returns them, although their
first 4 bytes differ from the PSD magic signature `8BPS`; no validation
error of any kind is produced.  This falsifies the claim that a job whose
received bytes do not start with the magic signature fails with a
`ValidationError`. -/
theorem C1_counterexample :
    (convertHandler (envResult [9, 9, 9, 9]) (some (figName, [7]))).response
      = HttpResponse.ok [9, 9, 9, 9] (String.toList "design.psd")
    ∧ List.take 4 [9, 9, 9, 9] ≠ psdMagic :=
  ⟨rfl, by decide⟩

/-- C1 (amended): the handler performs no magic-signature check at all —
whatever byte list the remote editor delivers as the export result is
returned verbatim as a successful payload, whether or not its first 4 bytes
equal the PSD magic signature, and no `ValidationError` exists in the
code. -/
theorem C1_payload_returned_unchecked (bs fb : List Nat) :
    (convertHandler (envResult bs) (some (figName, fb))).response
      = HttpResponse.ok bs (String.toList "design.psd") := rfl

/-- C2 counterexample: a job in which the export channel delivers a
zero-length binary result completes as a plain success with an empty
payload; it does not fail, and no `EmptyResultError` exists in the code.
The wait polls `window.psdData !== null` and an empty `ArrayBuffer` is not
`null`. -/
theorem C2_counterexample :
    (convertHandler (envResult []) (some (figName, [7]))).response
      = HttpResponse.ok [] (String.toList "design.psd") := rfl

/-- C2 (amended): a zero-length binary export result yields a successful
`200` response carrying a zero-length payload, for every upload name and
every upload content. -/
theorem C2_empty_success (fn : List Char) (fb : List Nat) :
    (convertHandler (envResult []) (some (fn, fb))).response
      = HttpResponse.ok [] (suggestedName fn) := rfl

/-- C3 counterexample: in a job whose remote peer sends the binary export
result at instant 3000 and a trailing completion sentinel at instant 3100,
the job completes successfully with the sentinel still undelivered in the
queue — the export phase did not wait for the trailing sentinel.  This
falsifies the claim that the phase is done only after both the binary
result and the trailing sentinel have arrived. -/
theorem C3_counterexample :
    (convertHandler (envTrailing 3100) (some (figName, [7]))).response
      = HttpResponse.ok [1, 2, 3] (String.toList "design.psd")
    ∧ (runTry (envTrailing 3100) [7]).pending = [(3100, Msg.str "done")] :=
  ⟨rfl, rfl⟩

/-- C3 (amended): the export phase completes upon receipt of the binary
result alone — for every arrival instant of a trailing completion sentinel
after the binary result, the job responds successfully while the sentinel
is still pending, i.e. the sentinel is never awaited. -/
theorem C3_no_sentinel_wait (t : Nat) (_h : 3000 < t) :
    (convertHandler (envTrailing t) (some (figName, [7]))).response
      = HttpResponse.ok [1, 2, 3] (String.toList "design.psd")
    ∧ (runTry (envTrailing t) [7]).pending = [(t, Msg.str "done")] :=
  ⟨rfl, rfl⟩

/-- Witness for `C3_no_sentinel_wait` at the concrete trailing instant
5000. -/
theorem C3_no_sentinel_wait_witness :
    3000 < 5000
    ∧ ((convertHandler (envTrailing 5000) (some (figName, [7]))).response
        = HttpResponse.ok [1, 2, 3] (String.toList "design.psd")
    ∧ (runTry (envTrailing 5000) [7]).pending = [(5000, Msg.str "done")]) :=
  ⟨by decide, C3_no_sentinel_wait 5000 (by decide)⟩

/-- C4: for every job (any launch outcome, any navigation outcome, any
message stream, whether or not `browser.close` itself throws), the
`finally` block invokes `browser.close()` exactly once when the browser was
launched and zero times when the launch failed — the session is never
closed twice and never left unclosed. -/
theorem C4_release_exactly_once (env : Env) (fn : List Char) (fb : List Nat) :
    (convertHandler env (some (fn, fb))).closeCalls = if env.launchOk then 1 else 0 := by
  unfold convertHandler
  dsimp only
  rw [runTry_acquired]

/-- C5 counterexample: in a job where `browser.close()` throws during
cleanup, the close error escapes the handler (an unhandled rejection)
instead of being caught and swallowed — the `finally` block has no
try/catch around `await browser.close()`.  This falsifies the claim that
secondary errors from the process-termination call are tolerated and
swallowed. -/
theorem C5_counterexample :
    (convertHandler envCloseThrows (some (figName, [7]))).unhandled
      = some JsError.closeFailure
    ∧ (convertHandler envCloseThrows (some (figName, [7]))).closeCalls = 1 :=
  ⟨rfl, rfl⟩

/-- C5 (amended): release is guarded (`if (browser)`) so it is skipped on a
partially-initialized job and invoked at most once per job, but an error
thrown by the underlying `browser.close()` call is not swallowed: it
escapes the handler exactly when a browser was launched and its close
throws. -/
theorem C5_release_guarded_not_swallowed (env : Env) (fn : List Char) (fb : List Nat) :
    (convertHandler env (some (fn, fb))).closeCalls ≤ 1
    ∧ (convertHandler env (some (fn, fb))).unhandled
        = (if env.launchOk && env.closeThrows then some JsError.closeFailure else none) := by
  unfold convertHandler
  dsimp only
  rw [runTry_acquired]
  constructor
  · split <;> simp
  · rfl

/-- C6: if the launch and navigation succeed (navigation completing at
instant `g`) but the handshake sentinel never arrives, the job throws the
handshake wait timeout exactly at `g + 60000` (the 60000 ms budget, with
the scheduling slack abstracted to zero), the `.fig` payload is never
posted to the remote document, no export command is sent, and the caller
receives the resulting error response. -/
theorem C6_handshake_timeout (env : Env) (g : Nat) (fn : List Char) (fb : List Nat)
    (hl : env.launchOk = true) (hg : env.gotoTime = some g)
    (hm : ∀ p ∈ env.msgs, p.2 ≠ Msg.str "done") :
    (runTry env fb).outcome = Except.error (JsError.waitTimeout Phase.handshake)
    ∧ (runTry env fb).sentFile = none
    ∧ (runTry env fb).exportCmd = none
    ∧ (runTry env fb).tEnd = g + 60000
    ∧ (convertHandler env (some (fn, fb))).response
        = HttpResponse.serverError "Conversion failed" "Waiting failed: 60000ms exceeded" := by
  have hr := runTry_goto env fb g hl hg
  have hd1 : ((deliverUpTo g pageInit env.msgs).1).ppReady = false := by
    rw [deliverUpTo_ppReady g env.msgs pageInit hm]
    rfl
  have hd2 : ∀ p ∈ (deliverUpTo g pageInit env.msgs).2, p.2 ≠ Msg.str "done" :=
    fun p hp => hm p (deliverUpTo_mem g env.msgs pageInit p hp)
  have hph := handshakePhase_timeout fb g _ _ hd1 hd2
  refine ⟨?_, ?_, ?_, ?_, ?_⟩
  · rw [hr]; exact hph.1
  · rw [hr]; exact hph.2.1
  · rw [hr]; exact hph.2.2.1
  · rw [hr]; exact hph.2.2.2
  · unfold convertHandler
    dsimp only
    rw [hr, hph.1]
    rfl

/-- Witness for `C6_handshake_timeout` on the concrete environment with no
messages at all. -/
theorem C6_handshake_timeout_witness :
    (runTry envNoMsgs [7]).outcome = Except.error (JsError.waitTimeout Phase.handshake)
    ∧ (runTry envNoMsgs [7]).sentFile = none
    ∧ (runTry envNoMsgs [7]).exportCmd = none
    ∧ (runTry envNoMsgs [7]).tEnd = 0 + 60000
    ∧ (convertHandler envNoMsgs (some (figName, [7]))).response
        = HttpResponse.serverError "Conversion failed" "Waiting failed: 60000ms exceeded" :=
  C6_handshake_timeout envNoMsgs 0 figName [7] rfl rfl (by simp [envNoMsgs])

/-- C7 counterexample: two jobs failing in different phases — one at the
handshake wait (the file is never posted) and one at the load wait (the
file was posted) — surface the exact same HTTP response, so the coordinator
does not distinguish the failure kind, and the response carries neither a
classified kind nor the elapsed time.  This falsifies the claim that every
failing job surfaces a classified error distinguishing the failure kind. -/
theorem C7_counterexample :
    (convertHandler envNoMsgs (some (figName, [7]))).response
      = (convertHandler envEarlyDone (some (figName, [7]))).response
    ∧ (runTry envNoMsgs [7]).sentFile = none
    ∧ (runTry envEarlyDone [7]).sentFile = some [7]
    ∧ (runTry envNoMsgs [7]).outcome = Except.error (JsError.waitTimeout Phase.handshake)
    ∧ (runTry envEarlyDone [7]).outcome = Except.error (JsError.waitTimeout Phase.load) :=
  ⟨rfl, rfl, rfl, rfl, rfl⟩

/-- C7 (amended): every failing job is surfaced as one generic
`500` response with the fixed label `Conversion failed` and the message of
the thrown error; no classified failure kind and no elapsed time is
included (the three wait-timeout kinds even share one identical
message). -/
theorem C7_single_generic_error (env : Env) (fn : List Char) (fb : List Nat)
    (e : JsError) (h : (runTry env fb).outcome = Except.error e) :
    (convertHandler env (some (fn, fb))).response
      = HttpResponse.serverError "Conversion failed" (errMessage e) := by
  unfold convertHandler
  dsimp only
  rw [h]

/-- Witness for `C7_single_generic_error` on the handshake-timeout
environment. -/
theorem C7_single_generic_error_witness :
    (convertHandler envNoMsgs (some (figName, [7]))).response
      = HttpResponse.serverError "Conversion failed"
          (errMessage (JsError.waitTimeout Phase.handshake)) :=
  C7_single_generic_error envNoMsgs figName [7] (JsError.waitTimeout Phase.handshake) rfl

/-- C8 counterexample: the command string actually posted to the remote
editor ends in a semicolon, so it is not of the exact form
`app.activeDocument.saveToOE("psd")` with no other content — it is that
string followed by one extra character.  This falsifies the claim as
stated. -/
theorem C8_counterexample :
    (runTry (envResult [8]) [7]).exportCmd = some exportCommand
    ∧ exportCommand ≠ "app.activeDocument.saveToOE(\"psd\")"
    ∧ exportCommand = "app.activeDocument.saveToOE(\"psd\")" ++ ";" :=
  ⟨rfl, by decide, by decide⟩

/-- C8 (amended): in every job, either no export command is posted, or the
posted command is exactly the string `app.activeDocument.saveToOE("psd");`
— the claimed form with a trailing semicolon — and nothing else is ever
posted as the export request. -/
theorem C8_export_command_token (env : Env) (fb : List Nat) :
    (runTry env fb).exportCmd = none ∨ (runTry env fb).exportCmd = some exportCommand := by
  unfold runTry
  cases h : env.launchOk with
  | false => simp [h]
  | true =>
      cases hg : env.gotoTime with
      | none => simp [h, hg]
      | some g =>
          simp only [h, hg]
          exact handshakePhase_cmd _ _ _ _

/-- C9 counterexample: in a job where the remote editor posts a stray
binary message before the handshake sentinel, the `.fig` bytes are
transmitted while `window.psdData` (the result flag) still holds the stale
pre-transfer value — only the ready flag is cleared before the transfer
(line 122), the result flag not until just before the export (line 144).
This falsifies the claim that the stale ready and result flags are both
cleared strictly before the source bytes are transmitted. -/
theorem C9_counterexample :
    (runTry envStale [7]).sentFile = some [7]
    ∧ (runTry envStale [7]).stAtSend
        = some { ppReady := false, psdData := some [5],
                 messageLog := [LogEntry.arrayBuffer 1, LogEntry.done] } :=
  ⟨rfl, rfl⟩

/-- C9 (amended): in every job that transmits the source bytes, the stale
ready flag is cleared strictly before the transmission (the recorded page
state at the instant of the file post has `ppReady = false`), so whenever
the job proceeds past the load wait to the export request, that wait was
satisfied by a `done` sentinel that was still queued — not yet delivered —
at transmission time, never by a stale pre-transfer signal. -/
theorem C9_ready_flag_cleared (env : Env) (fb : List Nat) (stS : PageState)
    (msS : List (Nat × Msg))
    (h1 : (runTry env fb).stAtSend = some stS)
    (h2 : (runTry env fb).msAtSend = some msS) :
    stS.ppReady = false
    ∧ ((runTry env fb).exportCmd.isSome = true →
        ∃ ta, (ta, Msg.str "done") ∈ msS) := by
  cases hl : env.launchOk with
  | false =>
      rw [runTry_launchFail env fb hl] at h1
      exact Option.noConfusion h1
  | true =>
      cases hg : env.gotoTime with
      | none =>
          rw [runTry_navFail env fb hl hg] at h1
          exact Option.noConfusion h1
      | some g =>
          rw [runTry_goto env fb g hl hg] at h1 h2 ⊢
          exact handshakePhase_send _ _ _ _ _ _ h1 h2

/-- Witness for `C9_ready_flag_cleared` on a concrete full-conversion
environment. -/
theorem C9_ready_flag_cleared_witness :
    (({ ppReady := false, psdData := none,
        messageLog := [LogEntry.done] } : PageState).ppReady = false)
    ∧ ((runTry (envResult [8]) [7]).exportCmd.isSome = true →
        ∃ ta, (ta, Msg.str "done") ∈ [(10, Msg.str "done"), (3000, Msg.binary [8])]) :=
  C9_ready_flag_cleared (envResult [8]) [7]
    { ppReady := false, psdData := none, messageLog := [LogEntry.done] }
    [(10, Msg.str "done"), (3000, Msg.binary [8])] rfl rfl

/-- C10: the suggested output name replaces exactly the first occurrence of
`.fig` (JavaScript `replace` with a string pattern): whenever the upload
name decomposes as `u ++ ".fig" ++ v` with no occurrence of `.fig` starting
before position `u.length`, the suggested name is `u ++ ".psd" ++ v`.
In particular `a.fig.fig` becomes `a.psd.fig`, which still ends in `.fig` —
the final extension is not the part replaced. -/
theorem C10_first_occurrence (u v : List Char)
    (h : ∀ i, i < u.length →
      startsWithL figChars (List.drop i (u ++ (figChars ++ v))) = false) :
    suggestedName (u ++ (figChars ++ v)) = u ++ (psdChars ++ v) := by
  induction u with
  | nil =>
      unfold suggestedName
      rw [List.nil_append,
        replaceFirst_pos figChars psdChars (figChars ++ v)
          (startsWithL_append_self figChars v),
        List.drop_left, List.nil_append]
  | cons c cs ih =>
      have h0 : startsWithL figChars (c :: (cs ++ (figChars ++ v))) = false := by
        have := h 0 (Nat.succ_pos _)
        simpa using this
      have ih2 := ih (fun i hi => by
        have := h (i + 1) (Nat.succ_lt_succ hi)
        simpa [List.drop_succ_cons] using this)
      unfold suggestedName at ih2 ⊢
      rw [List.cons_append,
        replaceFirst_neg figChars psdChars c (cs ++ (figChars ++ v)) h0, ih2]
      rfl

/-- Witness for `C10_first_occurrence`: the upload name `a.fig.fig`
(accepted by the file filter) gets the suggested output name `a.psd.fig`,
not `a.fig.psd`. -/
theorem C10_first_occurrence_witness :
    suggestedName (['a'] ++ (figChars ++ ['.', 'f', 'i', 'g']))
      = ['a'] ++ (psdChars ++ ['.', 'f', 'i', 'g']) :=
  C10_first_occurrence ['a'] ['.', 'f', 'i', 'g'] (by decide)
